import Mathlib

/-!
Shallow embedding of the listings application view layer
(alx_travel_app/listings/views.py) and proofs about its CRUD and
authorization behaviour.

Principals are natural numbers; an `Option Nat` is the current caller,
with `none` standing for an anonymous (unauthenticated) request.
Django querysets over the relational store are modelled as Lean lists
carried in an explicit `DB` record; each view method becomes a pure
function from the database and the request data to an HTTP outcome and
the resulting database.
-/

/-- HTTP status outcomes used by the view layer. -/
inductive Http where
  | ok200
  | created201
  | noContent204
  | badRequest400
  | unauthorized401
  | forbidden403
  | notFound404
deriving DecidableEq, Repr

/-- A listing record (listings.models.Listing, fields as used by the views
and declared by the data model). -/
structure Listing where
  id : Nat
  owner : Nat
  title : String
  description : String
  location : String
  listing_type : String
  price_per_night : Rat
  max_guests : Nat
  is_active : Bool
deriving DecidableEq, Repr

/-- A booking record (listings.models.Booking). `listing` is a foreign key
to a Listing id; `guest` is the principal who created the booking. -/
structure Booking where
  id : Nat
  listing : Nat
  guest : Nat
  status : String
  start_date : Nat
  end_date : Nat
  num_guests : Nat
deriving DecidableEq, Repr

/-- A review record (listings.models.Review). -/
structure Review where
  id : Nat
  listing : Nat
  reviewer : Nat
  rating : Nat
  comment : String
deriving DecidableEq, Repr

/-- The relational store shared by all view sets. -/
structure DB where
  listings : List Listing
  bookings : List Booking
  reviews : List Review
deriving DecidableEq, Repr

/-- Case-insensitive character comparison is realised by lowering both
sides, as the ORM icontains lookup does. -/
def lowerChars (s : String) : List Char := s.data.map Char.toLower

/-- Boolean test that the first list starts the second. -/
def leadsWith : List Char → List Char → Bool
  | [], _ => true
  | _ :: _, [] => false
  | a :: as, b :: bs => a == b && leadsWith as bs

/-- Boolean test that `needle` occurs contiguously inside `hay`. -/
def scanSub (needle : List Char) : List Char → Bool
  | [] => leadsWith needle []
  | c :: t => leadsWith needle (c :: t) || scanSub needle t

/-- The ORM lookup `field__icontains=needle`: case-insensitive substring
containment. -/
def icontains (hay needle : String) : Bool :=
  scanSub (lowerChars needle) (lowerChars hay)

/-- Query parameters accepted by ListingViewSet.get_queryset. A `none`
models an absent (or empty, hence falsy) parameter. -/
structure ListingFilters where
  type : Option String
  location : Option String
  min_price : Option Rat
  max_price : Option Rat
  guests : Option Nat
  search : Option String
deriving DecidableEq, Repr

/-- The request with no query parameters supplied. -/
def noFilters : ListingFilters :=
  { type := none, location := none, min_price := none, max_price := none,
    guests := none, search := none }

/-- One conditional `queryset.filter(...)` step: applied only when the
query parameter is present. -/
def optFilter {α : Type} (q : List Listing) (o : Option α)
    (p : α → Listing → Bool) : List Listing :=
  match o with
  | none => q
  | some a => q.filter (p a)

/-- ListingViewSet.get_queryset: starts from listings with is_active=True
and chains one filter per supplied query parameter, ending with the
three-field search disjunction. -/
def ListingViewSet.get_queryset (db : DB) (f : ListingFilters) : List Listing :=
  optFilter (optFilter (optFilter (optFilter (optFilter (optFilter
    (db.listings.filter (fun l => l.is_active))
    f.type (fun t l => l.listing_type == t))
    f.location (fun loc l => icontains l.location loc))
    f.min_price (fun p l => decide (p ≤ l.price_per_night)))
    f.max_price (fun p l => decide (l.price_per_night ≤ p)))
    f.guests (fun g l => decide (g ≤ l.max_guests)))
    f.search (fun s l =>
      icontains l.title s || icontains l.description s || icontains l.location s)

/-- Case-insensitive substring containment, written as the specification
phrases it: the lowered needle is a contiguous infix of the lowered hay. -/
def LowerInfix (needle hay : String) : Prop :=
  lowerChars needle <:+: lowerChars hay

/-- The filter contract of the specification for `list(filters)`: every supplied
parameter must hold (AND), an absent parameter imposes no constraint, and
`search` is an OR across title, description and location. -/
def ListingMatchesSpec (f : ListingFilters) (l : Listing) : Prop :=
  (∀ t, f.type = some t → l.listing_type = t) ∧
  (∀ loc, f.location = some loc → LowerInfix loc l.location) ∧
  (∀ p, f.min_price = some p → p ≤ l.price_per_night) ∧
  (∀ p, f.max_price = some p → l.price_per_night ≤ p) ∧
  (∀ g, f.guests = some g → g ≤ l.max_guests) ∧
  (∀ s, f.search = some s →
    (LowerInfix s l.title ∨ LowerInfix s l.description ∨ LowerInfix s l.location))

/-- DRF IsAuthenticated.has_permission: the caller must be authenticated,
whatever the method. -/
def isAuthenticatedPerm (user : Option Nat) (safeMethod : Bool) : Bool :=
  user.isSome || (safeMethod && false)

/-- DRF IsAuthenticatedOrReadOnly.has_permission: safe (read) methods are
open, unsafe methods require authentication. -/
def isAuthOrReadOnlyPerm (user : Option Nat) (safeMethod : Bool) : Bool :=
  user.isSome || safeMethod

/-- Owner of the listing with the given id, when it exists. -/
def ownerOf (db : DB) (lid : Nat) : Option Nat :=
  (db.listings.find? (fun l => l.id == lid)).map Listing.owner

/-- GenericAPIView.get_object for ListingViewSet: pk lookup inside
get_queryset, so the is_active filter and any query parameters apply to
every id-addressed action. -/
def listingGetObject (db : DB) (f : ListingFilters) (pk : Nat) : Option Listing :=
  (ListingViewSet.get_queryset db f).find? (fun l => l.id == pk)

/-- Writable listing fields carried by a serializer payload (field mapping
per the data model; id and owner are not caller-writable). -/
structure ListingPayload where
  title : String
  description : String
  location : String
  listing_type : String
  price_per_night : Rat
  max_guests : Nat
  is_active : Bool
deriving DecidableEq, Repr

/-- serializer.save() on an existing listing: overwrite the writable
fields, keep id and owner. -/
def listingApply (l : Listing) (p : ListingPayload) : Listing :=
  { l with
    title := p.title
    description := p.description
    location := p.location
    listing_type := p.listing_type
    price_per_night := p.price_per_night
    max_guests := p.max_guests
    is_active := p.is_active }

/-- Persist an updated listing row (matched by primary key). -/
def listingSaveDB (db : DB) (l2 : Listing) : DB :=
  { db with listings := db.listings.map (fun l => if l.id == l2.id then l2 else l) }

/-- ListingViewSet.perform_update as written: when the caller is not the
owner it builds a 403 response and returns it instead of saving; the first
component is that returned response status, the rest is serializer.instance
and the store after the call. -/
def ListingViewSet.perform_update (db : DB) (user : Nat) (l : Listing)
    (p : ListingPayload) : Option Http × Listing × DB :=
  if l.owner ≠ user then (some Http.forbidden403, l, db)
  else (none, listingApply l p, listingSaveDB db (listingApply l p))

/-- ListingViewSet.perform_destroy as written: when the caller is not the
owner it builds and returns a 403 response instead of deleting. -/
def ListingViewSet.perform_destroy (db : DB) (user : Nat) (l : Listing) :
    Option Http × DB :=
  if l.owner ≠ user then (some Http.forbidden403, db)
  else (none, { db with listings := db.listings.filter (fun x => x.id != l.id) })

/-- GET /listings/ : IsAuthenticatedOrReadOnly admits anonymous reads. -/
def listingListEndpoint (db : DB) (user : Option Nat) (f : ListingFilters) :
    Http × Option (List Listing) :=
  if isAuthOrReadOnlyPerm user true then
    (Http.ok200, some (ListingViewSet.get_queryset db f))
  else (Http.unauthorized401, none)

/-- GET /listings/pk/ : anonymous reads admitted; lookup via the filtered
queryset. -/
def listingRetrieveEndpoint (db : DB) (user : Option Nat) (f : ListingFilters)
    (pk : Nat) : Http × Option Listing :=
  if isAuthOrReadOnlyPerm user true then
    match listingGetObject db f pk with
    | none => (Http.notFound404, none)
    | some l => (Http.ok200, some l)
  else (Http.unauthorized401, none)

/-- PUT/PATCH /listings/pk/ : after permission and lookup, the framework
update flow validates, calls perform_update, DISCARDS the value returned
by perform_update, and answers 200 with serializer.data (the instance as it
stands after the call). -/
def listingUpdateEndpoint (db : DB) (user : Option Nat) (f : ListingFilters)
    (pk : Nat) (p : ListingPayload) : Http × Option Listing × DB :=
  match user with
  | none => (Http.unauthorized401, none, db)
  | some u =>
    match listingGetObject db f pk with
    | none => (Http.notFound404, none, db)
    | some l =>
      let r := ListingViewSet.perform_update db u l p
      (Http.ok200, some r.2.1, r.2.2)

/-- DELETE /listings/pk/ : the framework destroy flow calls
perform_destroy, discards its returned value, and answers 204. -/
def listingDestroyEndpoint (db : DB) (user : Option Nat) (f : ListingFilters)
    (pk : Nat) : Http × DB :=
  match user with
  | none => (Http.unauthorized401, db)
  | some u =>
    match listingGetObject db f pk with
    | none => (Http.notFound404, db)
    | some l =>
      let r := ListingViewSet.perform_destroy db u l
      (Http.noContent204, r.2)

/-- GET /listings/pk/reviews/ : open read returning the reviews that
reference the listing. -/
def listingReviewsEndpoint (db : DB) (user : Option Nat) (f : ListingFilters)
    (pk : Nat) : Http × Option (List Review) :=
  if isAuthOrReadOnlyPerm user true then
    match listingGetObject db f pk with
    | none => (Http.notFound404, none)
    | some l => (Http.ok200, some (db.reviews.filter (fun r => r.listing == l.id)))
  else (Http.unauthorized401, none)

/-- GET /listings/pk/bookings/ : the action compares request.user with the
listing owner and answers 403 on mismatch. -/
def listingBookingsEndpoint (db : DB) (user : Option Nat) (f : ListingFilters)
    (pk : Nat) : Http × Option (List Booking) :=
  if isAuthOrReadOnlyPerm user true then
    match listingGetObject db f pk with
    | none => (Http.notFound404, none)
    | some l =>
      if user ≠ some l.owner then (Http.forbidden403, none)
      else (Http.ok200, some (db.bookings.filter (fun b => b.listing == l.id)))
  else (Http.unauthorized401, none)

/-- BookingViewSet.get_queryset: empty for an unauthenticated caller (and
for schema generation); otherwise the bookings whose guest is the caller
or whose referenced listing is owned by the caller, `.distinct()`. -/
def BookingViewSet.get_queryset (db : DB) (user : Option Nat) : List Booking :=
  match user with
  | none => []
  | some u => db.bookings.filter (fun b => b.guest == u || ownerOf db b.listing == some u)

/-- GenericAPIView.get_object for BookingViewSet: pk lookup inside the
visibility-filtered queryset above, so it applies to every id-addressed
booking action. -/
def bookingGetObject (db : DB) (user : Option Nat) (pk : Nat) : Option Booking :=
  (BookingViewSet.get_queryset db user).find? (fun b => b.id == pk)

/-- The four status values accepted by update_status. -/
def validStatuses : List String := ["pending", "confirmed", "cancelled", "completed"]

/-- request.data.get of the status key: `none` when absent, and an absent
or unlisted value fails the membership test. -/
def statusOk (s : Option String) : Bool :=
  match s with
  | none => false
  | some v => validStatuses.contains v

/-- Persist an updated booking row (matched by primary key). -/
def bookingSaveDB (db : DB) (b2 : Booking) : DB :=
  { db with bookings := db.bookings.map (fun b => if b.id == b2.id then b2 else b) }

/-- GET /bookings/ : IsAuthenticated, then the filtered queryset. -/
def bookingListEndpoint (db : DB) (user : Option Nat) : Http × Option (List Booking) :=
  if isAuthenticatedPerm user true then
    (Http.ok200, some (BookingViewSet.get_queryset db user))
  else (Http.unauthorized401, none)

/-- Writable booking fields carried by a serializer payload. A guest value
supplied in the payload is modelled so that its (non-)use can be stated. -/
structure BookingPayload where
  listing : Nat
  guest : Option Nat
  start_date : Nat
  end_date : Nat
  num_guests : Nat
deriving DecidableEq, Repr

/-- BookingViewSet.perform_create: serializer.save(guest=request.user)
overrides any guest in the payload; status starts at the model default
pending. -/
def BookingViewSet.perform_create (user : Nat) (p : BookingPayload) (newId : Nat) : Booking :=
  { id := newId
    listing := p.listing
    guest := user
    status := "pending"
    start_date := p.start_date
    end_date := p.end_date
    num_guests := p.num_guests }

/-- Fresh primary key for a created booking. -/
def nextBookingId (db : DB) : Nat :=
  db.bookings.foldr (fun b m => max (b.id + 1) m) 0

/-- POST /bookings/ : IsAuthenticated, then perform_create appends the new
row and the response carries the created booking. -/
def bookingCreateEndpoint (db : DB) (user : Option Nat) (p : BookingPayload) :
    Http × Option Booking × DB :=
  match user with
  | none => (Http.unauthorized401, none, db)
  | some u =>
    let b := BookingViewSet.perform_create u p (nextBookingId db)
    (Http.created201, some b, { db with bookings := db.bookings ++ [b] })

/-- PATCH /bookings/pk/update_status/ : IsAuthenticated, get_object on the
visibility-filtered queryset, then the ownership check, then the status
membership check, then save and answer with the updated booking. -/
def bookingUpdateStatusEndpoint (db : DB) (user : Option Nat) (pk : Nat)
    (new_status : Option String) : Http × Option Booking × DB :=
  match user with
  | none => (Http.unauthorized401, none, db)
  | some u =>
    match bookingGetObject db (some u) pk with
    | none => (Http.notFound404, none, db)
    | some b =>
      if ownerOf db b.listing ≠ some u then (Http.forbidden403, none, db)
      else if statusOk new_status = false then (Http.badRequest400, none, db)
      else
        let b2 := { b with status := new_status.getD b.status }
        (Http.ok200, some b2, bookingSaveDB db b2)

/-- ReviewViewSet.get_queryset: all reviews, restricted to a listing when
the query parameter is supplied. -/
def ReviewViewSet.get_queryset (db : DB) (listing_q : Option Nat) : List Review :=
  match listing_q with
  | none => db.reviews
  | some lid => db.reviews.filter (fun r => r.listing == lid)

/-- GenericAPIView.get_object for ReviewViewSet. -/
def reviewGetObject (db : DB) (listing_q : Option Nat) (pk : Nat) : Option Review :=
  (ReviewViewSet.get_queryset db listing_q).find? (fun r => r.id == pk)

/-- GET /reviews/ : IsAuthenticated, then the (optionally filtered) queryset. -/
def reviewListEndpoint (db : DB) (user : Option Nat) (listing_q : Option Nat) :
    Http × Option (List Review) :=
  if isAuthenticatedPerm user true then
    (Http.ok200, some (ReviewViewSet.get_queryset db listing_q))
  else (Http.unauthorized401, none)

/-- Writable review fields carried by a serializer payload. -/
structure ReviewPayload where
  rating : Nat
  comment : String
deriving DecidableEq, Repr

/-- serializer.save() on an existing review. -/
def reviewApply (r : Review) (p : ReviewPayload) : Review :=
  { r with
    rating := p.rating
    comment := p.comment }

/-- Persist an updated review row (matched by primary key). -/
def reviewSaveDB (db : DB) (r2 : Review) : DB :=
  { db with reviews := db.reviews.map (fun r => if r.id == r2.id then r2 else r) }

/-- ReviewViewSet.perform_update as written: when the caller is not the
reviewer it builds and returns a 403 response instead of saving. -/
def ReviewViewSet.perform_update (db : DB) (user : Nat) (r : Review)
    (p : ReviewPayload) : Option Http × Review × DB :=
  if r.reviewer ≠ user then (some Http.forbidden403, r, db)
  else (none, reviewApply r p, reviewSaveDB db (reviewApply r p))

/-- ReviewViewSet.perform_destroy as written: when the caller is not the
reviewer it builds and returns a 403 response instead of deleting. -/
def ReviewViewSet.perform_destroy (db : DB) (user : Nat) (r : Review) :
    Option Http × DB :=
  if r.reviewer ≠ user then (some Http.forbidden403, db)
  else (none, { db with reviews := db.reviews.filter (fun x => x.id != r.id) })

/-- PUT/PATCH /reviews/pk/ : the framework update flow calls
perform_update, discards its returned value, and answers 200 with
serializer.data. -/
def reviewUpdateEndpoint (db : DB) (user : Option Nat) (listing_q : Option Nat)
    (pk : Nat) (p : ReviewPayload) : Http × Option Review × DB :=
  match user with
  | none => (Http.unauthorized401, none, db)
  | some u =>
    match reviewGetObject db listing_q pk with
    | none => (Http.notFound404, none, db)
    | some r =>
      let res := ReviewViewSet.perform_update db u r p
      (Http.ok200, some res.2.1, res.2.2)

/-- DELETE /reviews/pk/ : the framework destroy flow calls
perform_destroy, discards its returned value, and answers 204. -/
def reviewDestroyEndpoint (db : DB) (user : Option Nat) (listing_q : Option Nat)
    (pk : Nat) : Http × DB :=
  match user with
  | none => (Http.unauthorized401, db)
  | some u =>
    match reviewGetObject db listing_q pk with
    | none => (Http.notFound404, db)
    | some r =>
      let res := ReviewViewSet.perform_destroy db u r
      (Http.noContent204, res.2)

/-! ### Concrete scenario data
Principal 10 owns the listings; principal 20 is a guest and reviewer;
principal 30 is unrelated to every record. -/

/-- An active listing owned by principal 10. -/
def listingA : Listing :=
  { id := 1
    owner := 10
    title := "Downtown Loft"
    description := "Cozy loft near the center"
    location := "Austin"
    listing_type := "apartment"
    price_per_night := 100
    max_guests := 4
    is_active := true }

/-- An inactive listing owned by principal 10. -/
def listingB : Listing :=
  { id := 2
    owner := 10
    title := "Lake House"
    description := "Quiet house by the lake"
    location := "Tahoe"
    listing_type := "house"
    price_per_night := 250
    max_guests := 8
    is_active := false }

/-- A pending booking by guest 20 on listing 1. -/
def bookingA : Booking :=
  { id := 1
    listing := 1
    guest := 20
    status := "pending"
    start_date := 100
    end_date := 103
    num_guests := 2 }

/-- A review by reviewer 20 on listing 1. -/
def reviewA : Review :=
  { id := 1
    listing := 1
    reviewer := 20
    rating := 5
    comment := "Great stay" }

/-- The concrete store used by witnesses and counterexamples. -/
def dbA : DB :=
  { listings := [listingA, listingB]
    bookings := [bookingA]
    reviews := [reviewA] }

/-- A listing payload used when exercising the update endpoints. -/
def payloadL : ListingPayload :=
  { title := "Taken Over"
    description := "rewritten"
    location := "Nowhere"
    listing_type := "apartment"
    price_per_night := 1
    max_guests := 1
    is_active := true }

/-- A review payload used when exercising the update endpoints. -/
def payloadR : ReviewPayload :=
  { rating := 1
    comment := "rewritten" }

/-- A booking payload whose guest field names principal 30, to exercise
that perform_create overrides it. -/
def payloadB : BookingPayload :=
  { listing := 1
    guest := some 30
    start_date := 200
    end_date := 202
    num_guests := 3 }
theorem leadsWith_iff (n h : List Char) : leadsWith n h = true ↔ n <+: h := by
  induction n generalizing h with
  | nil => simp [leadsWith, List.nil_prefix]
  | cons a as ih =>
    cases h with
    | nil => simp [leadsWith]
    | cons b bs => simp [leadsWith, List.cons_prefix_cons, ih, and_comm]

theorem scanSub_iff (n h : List Char) : scanSub n h = true ↔ n <:+: h := by
  induction h with
  | nil => simp [scanSub, leadsWith_iff]
  | cons c t ih => simp [scanSub, leadsWith_iff, ih, List.infix_cons_iff]

theorem icontains_iff (hay needle : String) :
    icontains hay needle = true ↔ LowerInfix needle hay := by
  simpa [icontains, LowerInfix] using scanSub_iff (lowerChars needle) (lowerChars hay)

theorem mem_optFilter {α : Type} (q : List Listing) (o : Option α)
    (p : α → Listing → Bool) (l : Listing) :
    l ∈ optFilter q o p ↔ l ∈ q ∧ ∀ a, o = some a → p a l = true := by
  cases o with
  | none => simp [optFilter]
  | some a => simp [optFilter, List.mem_filter]

theorem mem_get_queryset (db : DB) (f : ListingFilters) (l : Listing) :
    l ∈ ListingViewSet.get_queryset db f ↔
      l ∈ db.listings ∧ l.is_active = true ∧ ListingMatchesSpec f l := by
  unfold ListingViewSet.get_queryset ListingMatchesSpec
  simp only [mem_optFilter, List.mem_filter, beq_iff_eq, decide_eq_true_eq,
    Bool.or_eq_true, icontains_iff, or_assoc]
  tauto


/-- C1: at the concrete store, an update and a delete of listing 1 by
principal 20 (not its owner 10) leave the store unchanged, yet the caller
observes success (200 with the unchanged record, and 204): the 403
response that perform_update / perform_destroy build is discarded by the
framework update/destroy flow, so the PermissionDenied the claim says the
caller observes never reaches the caller. -/
theorem claim_C1_nonowner_listing_mutation_reports_success :
    listingUpdateEndpoint dbA (some 20) noFilters 1 payloadL
        = (Http.ok200, some listingA, dbA) ∧
    listingDestroyEndpoint dbA (some 20) noFilters 1 = (Http.noContent204, dbA) ∧
    (ListingViewSet.perform_update dbA 20 listingA payloadL).1 = some Http.forbidden403 ∧
    (ListingViewSet.perform_destroy dbA 20 listingA).1 = some Http.forbidden403 := by
  refine ⟨rfl, rfl, rfl, rfl⟩

/-- C2 as stated fails on the code: at the concrete store, an anonymous
review read and an anonymous booking listing are both rejected with 401 by
the IsAuthenticated permission, instead of the review read succeeding and
the booking listing returning an empty result. -/
theorem claim_C2_counterexample_anonymous_reads :
    (reviewListEndpoint dbA none none).1 = Http.unauthorized401 ∧
    (bookingListEndpoint dbA none).1 = Http.unauthorized401 ∧
    Http.unauthorized401 ≠ Http.ok200 := by
  exact ⟨rfl, rfl, by decide⟩

/-- C2 amended: anonymous listing reads (list and retrieve) succeed, while
anonymous review reads and anonymous booking listing fail with an
authentication error; only the booking queryset function itself - reached
for unauthenticated users in schema-generation contexts alone - yields the
empty result. -/
theorem claim_C2_anonymous_access (db : DB) (f : ListingFilters) (q : Option Nat) :
    listingListEndpoint db none f
        = (Http.ok200, some (ListingViewSet.get_queryset db f)) ∧
    (∀ pk l, listingGetObject db f pk = some l →
      listingRetrieveEndpoint db none f pk = (Http.ok200, some l)) ∧
    (reviewListEndpoint db none q).1 = Http.unauthorized401 ∧
    (bookingListEndpoint db none).1 = Http.unauthorized401 ∧
    BookingViewSet.get_queryset db none = [] := by
  refine ⟨rfl, ?_, rfl, rfl, rfl⟩
  intro pk l h
  simp [listingRetrieveEndpoint, isAuthOrReadOnlyPerm, h]

/-- Witness for C2 amended: principal-free retrieval of the active
listing 1 succeeds. -/
theorem claim_C2_anonymous_access_witness :
    listingRetrieveEndpoint dbA none noFilters 1 = (Http.ok200, some listingA) :=
  (claim_C2_anonymous_access dbA noFilters none).2.1 1 listingA rfl

/-- C3: the listing list endpoint returns exactly the active listings
satisfying every supplied filter, with AND across filter kinds, exact
match on type, case-insensitive substring on location, inclusive price
bounds, minimum guest capacity, OR across title/description/location for
search, and no constraint from absent parameters. -/
theorem claim_C3_list_filter_semantics (db : DB) (f : ListingFilters) (l : Listing) :
    l ∈ ListingViewSet.get_queryset db f ↔
      l ∈ db.listings ∧ l.is_active = true ∧ ListingMatchesSpec f l :=
  mem_get_queryset db f l

/-- C4 as stated fails on the code: at the concrete store, the booking
list for an unauthenticated caller does not return the empty result - the
IsAuthenticated permission rejects the request with 401 before the
queryset function runs. -/
theorem claim_C4_counterexample_anonymous_list_is_401 :
    bookingListEndpoint dbA none = (Http.unauthorized401, none) ∧
    bookingListEndpoint dbA none ≠ (Http.ok200, some []) := by
  exact ⟨rfl, by decide⟩

/-- C4 amended: for an authenticated principal the booking list succeeds
and is exactly the set of bookings where the principal is the guest or
owns the referenced listing, with no duplicates; an unauthenticated
caller receives an authentication error, and only the queryset function
itself - reached without the permission check in schema-generation
contexts alone - yields the empty result. -/
theorem claim_C4_booking_visibility (db : DB) (u : Nat) (hnd : db.bookings.Nodup) :
    bookingListEndpoint db (some u)
        = (Http.ok200, some (BookingViewSet.get_queryset db (some u))) ∧
    (∀ b, b ∈ BookingViewSet.get_queryset db (some u) ↔
        b ∈ db.bookings ∧ (b.guest = u ∨ ownerOf db b.listing = some u)) ∧
    (BookingViewSet.get_queryset db (some u)).Nodup ∧
    bookingListEndpoint db none = (Http.unauthorized401, none) ∧
    BookingViewSet.get_queryset db none = [] := by
  refine ⟨rfl, ?_, ?_, rfl, rfl⟩
  · intro b
    simp [BookingViewSet.get_queryset, List.mem_filter]
  · exact hnd.filter _

/-- Witness for C4 amended: authenticated guest 20 receives 200, sees
booking 1, and the result list has no duplicates. -/
theorem claim_C4_booking_visibility_witness :
    bookingListEndpoint dbA (some 20)
        = (Http.ok200, some (BookingViewSet.get_queryset dbA (some 20))) ∧
    bookingA ∈ BookingViewSet.get_queryset dbA (some 20) ∧
    (BookingViewSet.get_queryset dbA (some 20)).Nodup :=
  ⟨(claim_C4_booking_visibility dbA 20 (by decide)).1,
   ((claim_C4_booking_visibility dbA 20 (by decide)).2.1 bookingA).mpr
      ⟨by decide, Or.inl rfl⟩,
   (claim_C4_booking_visibility dbA 20 (by decide)).2.2.1⟩

/-- C5: when the owner of the referenced listing calls update_status with
a value outside the four valid statuses, the endpoint answers 400
(ValidationError) and the store - hence the booking status field - is
unchanged. -/
theorem claim_C5_invalid_status_rejected (db : DB) (u pk : Nat) (s : Option String)
    (b : Booking) (hget : bookingGetObject db (some u) pk = some b)
    (hown : ownerOf db b.listing = some u) (hbad : statusOk s = false) :
    bookingUpdateStatusEndpoint db (some u) pk s = (Http.badRequest400, none, db) := by
  simp [bookingUpdateStatusEndpoint, hget, hown, hbad]

/-- Witness for C5: owner 10 supplies the invalid status value approved
and receives 400 with no mutation. -/
theorem claim_C5_invalid_status_rejected_witness :
    bookingUpdateStatusEndpoint dbA (some 10) 1 (some "approved")
        = (Http.badRequest400, none, dbA) :=
  claim_C5_invalid_status_rejected dbA 10 1 (some "approved") bookingA rfl rfl rfl

/-- C6 as stated fails on the code: principal 30 - neither guest nor owner
- calls update_status on booking 1 with a valid status and receives 404,
not the claimed PermissionDenied, because object lookup goes through the
visibility-filtered booking queryset of the caller. -/
theorem claim_C6_counterexample_stranger_gets_404 :
    bookingUpdateStatusEndpoint dbA (some 30) 1 (some "confirmed")
        = (Http.notFound404, none, dbA) ∧
    Http.notFound404 ≠ Http.forbidden403 := by
  exact ⟨rfl, by decide⟩

/-- C6 amended: a non-owner never mutates the booking - a caller who can
see it (its guest) receives 403, a caller outside the visibility queryset
receives 404 - and the owner supplying one of the four valid statuses gets
the new status persisted and the updated booking returned. -/
theorem claim_C6_update_status_authorization (db : DB) (u pk : Nat) (s : String) :
    (∀ b, bookingGetObject db (some u) pk = some b → ownerOf db b.listing ≠ some u →
      bookingUpdateStatusEndpoint db (some u) pk (some s)
        = (Http.forbidden403, none, db)) ∧
    (bookingGetObject db (some u) pk = none →
      bookingUpdateStatusEndpoint db (some u) pk (some s)
        = (Http.notFound404, none, db)) ∧
    (∀ b, bookingGetObject db (some u) pk = some b → ownerOf db b.listing = some u →
      s ∈ validStatuses →
      bookingUpdateStatusEndpoint db (some u) pk (some s)
        = (Http.ok200, some { b with status := s },
           bookingSaveDB db { b with status := s })) := by
  refine ⟨?_, ?_, ?_⟩
  · intro b hget hn
    simp [bookingUpdateStatusEndpoint, hget, hn]
  · intro h
    simp [bookingUpdateStatusEndpoint, h]
  · intro b hget hown hs
    have hok : statusOk (some s) = true := by
      simp only [statusOk]
      simpa using hs
    simp [bookingUpdateStatusEndpoint, hget, hown, hok, Option.getD]

/-- Witness for C6 amended: owner 10 confirms booking 1 and the new status
is persisted and returned. -/
theorem claim_C6_update_status_authorization_witness :
    bookingUpdateStatusEndpoint dbA (some 10) 1 (some "confirmed")
        = (Http.ok200, some { bookingA with status := "confirmed" },
           bookingSaveDB dbA { bookingA with status := "confirmed" }) :=
  (claim_C6_update_status_authorization dbA 10 1 "confirmed").2.2
    bookingA rfl rfl (by decide)

/-- C7: review 1 belongs to reviewer 20; at the concrete store an update
and a delete by principal 30 leave the store unchanged yet answer success
(200 with the unchanged review, and 204), because the 403 built inside
perform_update / perform_destroy is discarded by the framework flow - the
PermissionDenied the claim says the caller observes is never delivered.
The update by reviewer 20 does succeed and persists, as the claim says. -/
theorem claim_C7_nonreviewer_mutation_reports_success :
    reviewUpdateEndpoint dbA (some 30) none 1 payloadR
        = (Http.ok200, some reviewA, dbA) ∧
    reviewDestroyEndpoint dbA (some 30) none 1 = (Http.noContent204, dbA) ∧
    (ReviewViewSet.perform_update dbA 30 reviewA payloadR).1
        = some Http.forbidden403 ∧
    reviewUpdateEndpoint dbA (some 20) none 1 payloadR
        = (Http.ok200, some (reviewApply reviewA payloadR),
           reviewSaveDB dbA (reviewApply reviewA payloadR)) := by
  refine ⟨rfl, rfl, rfl, rfl⟩

/-- C8: a created booking always carries the calling principal as its
guest, whatever guest value the payload names. -/
theorem claim_C8_create_forces_guest (db : DB) (u : Nat) (p : BookingPayload)
    (n : Nat) :
    (BookingViewSet.perform_create u p n).guest = u ∧
    (bookingCreateEndpoint db (some u) p).2.1
        = some (BookingViewSet.perform_create u p (nextBookingId db)) :=
  ⟨rfl, rfl⟩

/-- C9: when every listing carrying the requested id is inactive, the
queryset-based object lookup fails for every action and every caller -
the owner included - so retrieve, update, delete and the reviews and
bookings sub-resources all answer 404 and leave the store unchanged. -/
theorem claim_C9_inactive_listing_hidden_from_all_actions
    (db : DB) (f : ListingFilters) (pk u : Nat) (p : ListingPayload)
    (h : ∀ l ∈ db.listings, l.id = pk → l.is_active = false) :
    listingGetObject db f pk = none ∧
    listingRetrieveEndpoint db (some u) f pk = (Http.notFound404, none) ∧
    listingUpdateEndpoint db (some u) f pk p = (Http.notFound404, none, db) ∧
    listingDestroyEndpoint db (some u) f pk = (Http.notFound404, db) ∧
    listingReviewsEndpoint db (some u) f pk = (Http.notFound404, none) ∧
    listingBookingsEndpoint db (some u) f pk = (Http.notFound404, none) := by
  have hg : listingGetObject db f pk = none := by
    rw [listingGetObject, List.find?_eq_none]
    intro l hl
    simp only [beq_iff_eq]
    intro hid
    have hm := (mem_get_queryset db f l).mp hl
    have hfalse := h l hm.1 hid
    rw [hm.2.1] at hfalse
    exact absurd hfalse (by decide)
  refine ⟨hg, ?_, ?_, ?_, ?_, ?_⟩ <;>
    simp [listingRetrieveEndpoint, listingUpdateEndpoint, listingDestroyEndpoint,
      listingReviewsEndpoint, listingBookingsEndpoint, isAuthOrReadOnlyPerm, hg]

/-- Witness for C9: listing 2 is inactive, and owner 10 receives 404 on
every id-addressed action targeting it. -/
theorem claim_C9_inactive_listing_hidden_witness :
    listingGetObject dbA noFilters 2 = none ∧
    listingRetrieveEndpoint dbA (some 10) noFilters 2 = (Http.notFound404, none) ∧
    listingUpdateEndpoint dbA (some 10) noFilters 2 payloadL
        = (Http.notFound404, none, dbA) ∧
    listingDestroyEndpoint dbA (some 10) noFilters 2 = (Http.notFound404, dbA) ∧
    listingReviewsEndpoint dbA (some 10) noFilters 2 = (Http.notFound404, none) ∧
    listingBookingsEndpoint dbA (some 10) noFilters 2 = (Http.notFound404, none) :=
  claim_C9_inactive_listing_hidden_from_all_actions dbA noFilters 2 10 payloadL
    (by decide)

/-- C10 as stated fails on the code: principal 30, who is not the owner,
supplies a valid status for booking 1 and receives 404 rather than the
claimed PermissionDenied, because the booking lies outside the visibility
queryset of principal 30. -/
theorem claim_C10_counterexample_nonowner_not_403 :
    bookingUpdateStatusEndpoint dbA (some 30) 1 (some "cancelled")
        = (Http.notFound404, none, dbA) ∧
    Http.notFound404 ≠ Http.forbidden403 := by
  exact ⟨rfl, by decide⟩

/-- C10 amended: the ownership check precedes the status-validity check -
a non-owner who can see the booking receives 403 whatever status value is
supplied, a non-owner who cannot receives 404, and a 400 ValidationError
is only ever observed when the caller owns the referenced listing. -/
theorem claim_C10_validation_only_reaches_owner (db : DB) (u pk : Nat)
    (s : Option String) :
    (∀ b, bookingGetObject db (some u) pk = some b → ownerOf db b.listing ≠ some u →
      bookingUpdateStatusEndpoint db (some u) pk s = (Http.forbidden403, none, db)) ∧
    ((bookingUpdateStatusEndpoint db (some u) pk s).1 = Http.badRequest400 →
      ∃ b, bookingGetObject db (some u) pk = some b ∧
        ownerOf db b.listing = some u) := by
  constructor
  · intro b hget hn
    simp [bookingUpdateStatusEndpoint, hget, hn]
  · intro hbad
    cases hg : bookingGetObject db (some u) pk with
    | none =>
      rw [bookingUpdateStatusEndpoint] at hbad
      simp [hg] at hbad
    | some b =>
      by_cases ho : ownerOf db b.listing = some u
      · exact ⟨b, rfl, ho⟩
      · rw [bookingUpdateStatusEndpoint] at hbad
        simp [hg, ho] at hbad

/-- Witness for C10 amended: guest 20 supplies an invalid status for
booking 1 and still receives 403, not 400 - validation was never
reached. -/
theorem claim_C10_validation_only_reaches_owner_witness :
    bookingUpdateStatusEndpoint dbA (some 20) 1 (some "weird")
        = (Http.forbidden403, none, dbA) :=
  (claim_C10_validation_only_reaches_owner dbA 20 1 (some "weird")).1
    bookingA rfl (by decide)
